import Mathlib

/-!
Shallow embedding of `src/server/src/schemas/resolvers.ts`, the GraphQL
resolver layer of the book-search-engine repository.

The store (Mongoose `User` collection) is modelled as a list of user
documents.  `findOne` is first-match lookup, `findOneAndUpdate` updates the
first matching document and (with `new: true`) returns the post-update
document.  The Mongo array operators used by the resolvers are modelled
with their documented semantics: `$addToSet` appends the element unless an
element equal on all fields is already present; `$pull {bookId}` removes
every element whose `bookId` equals the given value.

External collaborators (password hashing, token signing) and the parts of
`models/User.ts` that are not in the source tree are passed as parameters
or modelled from the spec, as marked on each definition.

Thrown values: the resolvers throw `new AuthenticationError(msg)` on every
error path except one — the unknown-email branch of `loginUser` throws the
`AuthenticationError` constructor value itself (`throw AuthenticationError`
without `new`), which is a distinct runtime value that is not an instance
of the error class.  The `Thrown` type keeps the two cases apart.
-/

/-- An embedded book record (the `BookInput` / `BookDocument` shape). -/
structure Book where
  authors : List String
  description : String
  bookId : String
  image : String
  link : String
  title : String
deriving DecidableEq

/-- A user document as stored (fields of the `User` interface except the
derived `bookCount`, which is computed at read time, see `bookCount`). -/
structure User where
  id : String
  username : String
  email : String
  password : String
  savedBooks : List Book
deriving DecidableEq

/-- Modelled from the spec: the `bookCount` virtual lives in
`models/User.ts`, which is absent from the source tree; the spec states
that `bookCount` always equals `len(savedBooks)` at the moment of read and
is never persisted independently. -/
def bookCount (u : User) : Nat :=
  u.savedBooks.length

/-- The authenticated identity attached to the request context by the auth
middleware.  The resolvers read only `_id`; `id` is carried so that an
identity holding an `id` but no `_id` is expressible. -/
structure Identity where
  _id : Option String
  id : Option String
deriving DecidableEq

/-- The request context: `user` is absent/falsy (`none`) or an identity. -/
structure Context where
  user : Option Identity
deriving DecidableEq

/-- A value thrown by a resolver.  `authenticationError msg` models
`throw new AuthenticationError(msg)`; `authenticationErrorClassItself`
models `throw AuthenticationError` (the constructor value, no `new`). -/
inductive Thrown where
  | authenticationError (msg : String)
  | authenticationErrorClassItself
deriving DecidableEq

/-- Whether a thrown value is an instance of `AuthenticationError`
(an `instanceof` check): the bare constructor value is not. -/
def isAuthenticationErrorInstance : Thrown → Bool
  | .authenticationError _ => true
  | .authenticationErrorClassItself => false

/-- The user store: the Mongoose `User` collection. -/
abbrev Store := List User

/-- The filter `{ _id: oid }` applied to a document: the document matches
when the filter value is the document's id. -/
def idMatches (oid : Option String) (u : User) : Bool :=
  decide (oid = some u.id)

/-- `User.findOne({ _id })`: first document matching the id filter. -/
def findOneById (store : Store) (oid : Option String) : Option User :=
  store.find? (idMatches oid)

/-- `User.findOne({ username })`. -/
def findOneByUsername (store : Store) (username : String) : Option User :=
  store.find? (fun u => decide (u.username = username))

/-- `User.findOne({ email })`. -/
def findOneByEmail (store : Store) (email : String) : Option User :=
  store.find? (fun u => decide (u.email = email))

/-- `findOneAndUpdate` with `new: true`: update the first document
matching `p` by `f`; return the post-update document (or `none` when no
document matches) together with the updated store. -/
def updateFirst (p : User → Bool) (f : User → User) : Store → Option User × Store
  | [] => (none, [])
  | u :: rest =>
    if p u then (some (f u), f u :: rest)
    else
      let r := updateFirst p f rest
      (r.1, u :: r.2)

/-- Mongo `$addToSet`: append the element unless an element equal on all
fields is already present (whole-document equality, not key equality). -/
def addToSet (books : List Book) (b : Book) : List Book :=
  if b ∈ books then books else books ++ [b]

/-- Mongo `$pull { savedBooks: { bookId } }`: remove every element whose
`bookId` field equals the given value. -/
def pullByBookId (books : List Book) (bookId : String) : List Book :=
  books.filter (fun b => !(decide (b.bookId = bookId)))

/-- The `user` query: look up by exact username; an absent result is a
valid empty result, not an error.  No authentication required. -/
def user (store : Store) (username : String) : Option User :=
  findOneByUsername store username

/-- The `me` query.  Returns the result together with the number of store
calls performed: the unauthenticated branch throws before any store
access. -/
def me (context : Context) (store : Store) : Except Thrown (Option User) × Nat :=
  match context.user with
  | some cu => (.ok (findOneById store cu._id), 1)
  | none => (.error (.authenticationError "Not Authenticated"), 0)

/-- The input of the `createUser` mutation. -/
structure CreateUserInput where
  username : String
  email : String
  password : String
  savedBooks : List Book
deriving DecidableEq

/-- Modelled from the spec: `models/User.ts` (absent from the source tree)
hashes the password in a pre-save hook inside the store's create path, and
the store assigns a fresh id; `hash` abstracts the hashing collaborator
and `freshId` the store-assigned identifier. -/
def storeCreate (hash : String → String) (store : Store)
    (input : CreateUserInput) (freshId : String) : User × Store :=
  let u : User :=
    { id := freshId, username := input.username, email := input.email
      password := hash input.password, savedBooks := input.savedBooks }
  (u, store ++ [u])

/-- The `createUser` mutation: create the user, sign a token from
`(username, email, id)`, return `{ token, user }` and the updated store.
`sign` abstracts the `signToken` collaborator. -/
def createUser (hash : String → String) (sign : String → String → String → String)
    (store : Store) (input : CreateUserInput) (freshId : String) :
    (String × User) × Store :=
  let r := storeCreate hash store input freshId
  ((sign r.1.username r.1.email r.1.id, r.1), r.2)

/-- The `loginUser` mutation.  `chk u pw` abstracts
`user.isCorrectPassword(pw)` (the hashing collaborator in
`models/User.ts`); `sign` abstracts `signToken`.  The unknown-email branch
throws the bare constructor value, exactly as the source does. -/
def loginUser (chk : User → String → Bool) (sign : String → String → String → String)
    (store : Store) (email password : String) : Except Thrown (String × User) :=
  match findOneByEmail store email with
  | none => .error .authenticationErrorClassItself
  | some u =>
    if chk u password then .ok (sign u.username u.email u.id, u)
    else .error (.authenticationError "Not authenticated")

/-- The `saveBook` mutation: requires truthy `context.user`, then
`findOneAndUpdate({_id: context.user._id}, {$addToSet: {savedBooks: input}},
{new: true})`.  Returns the result together with the post-call store. -/
def saveBook (context : Context) (store : Store) (input : Book) :
    Except Thrown (Option User) × Store :=
  match context.user with
  | some cu =>
    let r := updateFirst (idMatches cu._id)
      (fun u => { u with savedBooks := addToSet u.savedBooks input }) store
    (.ok r.1, r.2)
  | none => (.error (.authenticationError "Could not find user"), store)

/-- The `deleteBook` mutation: requires truthy `context.user`, then
`findOneAndUpdate({_id: context.user._id}, {$pull: {savedBooks: {bookId}}},
{new: true})`.  Returns the result together with the post-call store. -/
def deleteBook (context : Context) (store : Store) (bookId : String) :
    Except Thrown (Option User) × Store :=
  match context.user with
  | some cu =>
    let r := updateFirst (idMatches cu._id)
      (fun u => { u with savedBooks := pullByBookId u.savedBooks bookId }) store
    (.ok r.1, r.2)
  | none => (.error (.authenticationError "Could not find user"), store)

/-! Sample values used by witness theorems. -/

/-- A concrete book. -/
def sampleBook : Book :=
  { authors := ["An Author"], description := "d", bookId := "b1"
    image := "", link := "", title := "T" }

/-- A book sharing `sampleBook`'s `bookId` but with a different title. -/
def sampleBookOtherTitle : Book :=
  { authors := ["An Author"], description := "d", bookId := "b1"
    image := "", link := "", title := "T2" }

/-- A concrete stored user. -/
def sampleUser : User :=
  { id := "u1", username := "alice", email := "a@x.com"
    password := "hp", savedBooks := [] }

/-- A second stored user with a different id. -/
def sampleOtherUser : User :=
  { id := "u2", username := "bob", email := "b@x.com"
    password := "hp2", savedBooks := [sampleBook] }

/-- A stored user holding two books that share the same `bookId`. -/
def sampleUserTwoCopies : User :=
  { id := "u1", username := "alice", email := "a@x.com"
    password := "hp", savedBooks := [sampleBook, sampleBookOtherTitle] }

/-! Helper lemmas about the store's `findOneAndUpdate` model. -/

/-- `findOneAndUpdate` preserves the number of documents. -/
theorem updateFirst_length (p : User → Bool) (f : User → User) :
    ∀ l : Store, ((updateFirst p f l).2).length = l.length := by
  intro l
  induction l with
  | nil => rfl
  | cons u rest ih =>
    by_cases h : p u
    · simp [updateFirst, h]
    · simp [updateFirst, h, ih]

/-- When no document matches, `findOneAndUpdate` returns `none` and leaves
the store unchanged. -/
theorem updateFirst_of_find_none (p : User → Bool) (f : User → User) :
    ∀ l : Store, l.find? p = none → updateFirst p f l = (none, l) := by
  intro l
  induction l with
  | nil => intro _; rfl
  | cons u rest ih =>
    intro h
    rw [List.find?_cons] at h
    cases hpu : p u with
    | true => simp [hpu] at h
    | false =>
      rw [hpu] at h
      simp [updateFirst, hpu, ih h]

/-- When a document matches, `findOneAndUpdate` (with `new: true`) returns
the updated first match. -/
theorem updateFirst_fst_of_find_some (p : User → Bool) (f : User → User) :
    ∀ l : Store, ∀ u : User, l.find? p = some u →
      (updateFirst p f l).1 = some (f u) := by
  intro l
  induction l with
  | nil => intro u h; simp [List.find?] at h
  | cons v rest ih =>
    intro u h
    rw [List.find?_cons] at h
    cases hpv : p v with
    | true =>
      rw [hpv] at h
      simp at h
      subst h
      simp [updateFirst, hpv]
    | false =>
      rw [hpv] at h
      simp [updateFirst, hpv, ih u h]

/-- When the update is the identity on the first match, `findOneAndUpdate`
returns that document and leaves the store unchanged. -/
theorem updateFirst_of_fix (p : User → Bool) (f : User → User) :
    ∀ l : Store, ∀ u : User, l.find? p = some u → f u = u →
      updateFirst p f l = (some u, l) := by
  intro l
  induction l with
  | nil => intro u h _; simp [List.find?] at h
  | cons v rest ih =>
    intro u h hfix
    rw [List.find?_cons] at h
    cases hpv : p v with
    | true =>
      rw [hpv] at h
      simp at h
      subst h
      simp [updateFirst, hpv, hfix]
    | false =>
      rw [hpv] at h
      simp [updateFirst, hpv, ih u h hfix]

/-- After an update whose result still matches the filter, a second lookup
finds the updated document. -/
theorem find_updateFirst (p : User → Bool) (f : User → User) :
    ∀ l : Store, ∀ u : User, l.find? p = some u → p (f u) = true →
      ((updateFirst p f l).2).find? p = some (f u) := by
  intro l
  induction l with
  | nil => intro u h _; simp [List.find?] at h
  | cons v rest ih =>
    intro u h hpf
    rw [List.find?_cons] at h
    cases hpv : p v with
    | true =>
      rw [hpv] at h
      simp at h
      subst h
      simp [updateFirst, hpv, List.find?_cons, hpf]
    | false =>
      rw [hpv] at h
      simp [updateFirst, hpv, List.find?_cons, ih u h hpf]

/-- Positional characterisation: when the store splits as
`front ++ target :: back` with no match in `front` and `target` matching,
`findOneAndUpdate` rewrites exactly the target and keeps every other
document in place. -/
theorem updateFirst_append (p : User → Bool) (f : User → User) :
    ∀ front : Store, ∀ u : User, ∀ back : Store,
      (∀ v ∈ front, p v = false) → p u = true →
      updateFirst p f (front ++ u :: back) = (some (f u), front ++ f u :: back) := by
  intro front
  induction front with
  | nil =>
    intro u back _ hu
    simp [updateFirst, hu]
  | cons v front' ih =>
    intro u back hfront hu
    have hv : p v = false := hfront v (by simp)
    have hrest : ∀ w ∈ front', p w = false := fun w hw => hfront w (by simp [hw])
    simp [updateFirst, hv, ih u back hrest hu]

/-! Claim theorems. -/

/-- C4: for every context in which `context.user` is absent or falsy, `me`
fails with `AuthenticationError("Not Authenticated")` and performs zero
store calls. -/
theorem me_unauthenticated_no_store_calls (context : Context) (store : Store)
    (h : context.user = none) :
    me context store = (.error (.authenticationError "Not Authenticated"), 0) := by
  obtain ⟨cu⟩ := context
  subst h
  rfl

/-- Witness for C4 at a concrete context and store. -/
theorem me_unauthenticated_no_store_calls_witness :
    (Context.mk none).user = none ∧
    me ⟨none⟩ [sampleUser] = (.error (.authenticationError "Not Authenticated"), 0) :=
  ⟨rfl, me_unauthenticated_no_store_calls ⟨none⟩ [sampleUser] rfl⟩

/-- C3: for every input and every context in which `context.user` is
absent or falsy, `saveBook` and `deleteBook` fail with
`AuthenticationError("Could not find user")` and leave the store
unchanged. -/
theorem unauthenticated_mutations_fail (context : Context) (store : Store)
    (input : Book) (bookId : String) (h : context.user = none) :
    saveBook context store input =
      (.error (.authenticationError "Could not find user"), store) ∧
    deleteBook context store bookId =
      (.error (.authenticationError "Could not find user"), store) := by
  obtain ⟨cu⟩ := context
  subst h
  exact ⟨rfl, rfl⟩

/-- Witness for C3 at a concrete context, store and input. -/
theorem unauthenticated_mutations_fail_witness :
    (Context.mk none).user = none ∧
    (saveBook ⟨none⟩ [sampleUser] sampleBook =
      (.error (.authenticationError "Could not find user"), [sampleUser]) ∧
     deleteBook ⟨none⟩ [sampleUser] "b1" =
      (.error (.authenticationError "Could not find user"), [sampleUser])) :=
  ⟨rfl, unauthenticated_mutations_fail ⟨none⟩ [sampleUser] sampleBook "b1" rfl⟩

/-- C2: at a concrete unknown email, `loginUser` throws the bare
`AuthenticationError` constructor value — a thrown value that is not an
instance of `AuthenticationError`, so the failure is not recognizable as
one — rather than returning any success. -/
theorem loginUser_unknown_email_throws_constructor :
    loginUser (fun u pw => decide (u.password = pw)) (fun a b c => a ++ b ++ c)
      [sampleUser] "nobody@x.com" "p" = .error .authenticationErrorClassItself ∧
    isAuthenticationErrorInstance .authenticationErrorClassItself = false := by
  constructor
  · rfl
  · rfl

/-- C7: `createUser` appends exactly one new record carrying the given
fields (password passed through the store's hashing collaborator), signs a
token from `(username, email, id)` of the created user, and returns the
`{token, user}` pair. -/
theorem createUser_creates_one_record (hash : String → String)
    (sign : String → String → String → String) (store : Store)
    (input : CreateUserInput) (freshId : String) :
    createUser hash sign store input freshId =
      ((sign input.username input.email freshId,
        { id := freshId, username := input.username, email := input.email,
          password := hash input.password, savedBooks := input.savedBooks }),
       store ++ [{ id := freshId, username := input.username,
                   email := input.email, password := hash input.password,
                   savedBooks := input.savedBooks }]) ∧
    ((createUser hash sign store input freshId).2).length = store.length + 1 ∧
    bookCount (createUser hash sign store input freshId).1.2 =
      input.savedBooks.length := by
  refine ⟨rfl, ?_, rfl⟩
  simp [createUser, storeCreate]

/-- C6: when the email resolves to a stored user and the password check
fails, `loginUser` fails with `AuthenticationError("Not authenticated")`;
the result does not depend on the token signer, so no token is issued. -/
theorem loginUser_wrong_password_fails (chk : User → String → Bool)
    (sign sign' : String → String → String → String) (store : Store)
    (email pw : String) (u : User)
    (hfind : findOneByEmail store email = some u)
    (hchk : chk u pw = false) :
    loginUser chk sign store email pw =
      .error (.authenticationError "Not authenticated") ∧
    loginUser chk sign store email pw = loginUser chk sign' store email pw := by
  constructor <;> simp [loginUser, hfind, hchk]

/-- Witness for C6 at a concrete store, user and wrong password. -/
theorem loginUser_wrong_password_fails_witness :
    findOneByEmail [sampleUser] "a@x.com" = some sampleUser ∧
    (fun (u : User) (pw : String) => decide (u.password = pw)) sampleUser "wrong"
      = false ∧
    (loginUser (fun u pw => decide (u.password = pw)) (fun a b c => a ++ b ++ c)
        [sampleUser] "a@x.com" "wrong" =
      .error (.authenticationError "Not authenticated") ∧
     loginUser (fun u pw => decide (u.password = pw)) (fun a b c => a ++ b ++ c)
        [sampleUser] "a@x.com" "wrong" =
      loginUser (fun u pw => decide (u.password = pw)) (fun _ _ _ => "")
        [sampleUser] "a@x.com" "wrong") :=
  ⟨by decide, by decide,
   loginUser_wrong_password_fails (fun u pw => decide (u.password = pw))
     (fun a b c => a ++ b ++ c) (fun _ _ _ => "") [sampleUser] "a@x.com" "wrong"
     sampleUser (by decide) (by decide)⟩

/-- C10: a truthy `context.user` carrying an `id` but no `_id` passes the
authentication check of `me`, `saveBook` and `deleteBook`; the store
lookup/update is keyed on the absent `_id`, matches nothing, and each
operation returns an absent result (never an `AuthenticationError`),
leaving the store unchanged. -/
theorem truthy_identity_without_underscore_id (store : Store) (iid : String)
    (input : Book) (bookId : String) :
    me ⟨some ⟨none, some iid⟩⟩ store = (.ok (findOneById store none), 1) ∧
    findOneById store none = none ∧
    saveBook ⟨some ⟨none, some iid⟩⟩ store input = (.ok none, store) ∧
    deleteBook ⟨some ⟨none, some iid⟩⟩ store bookId = (.ok none, store) := by
  have hfind : store.find? (idMatches none) = none :=
    List.find?_eq_none.mpr (fun u _ => by simp [idMatches])
  refine ⟨rfl, hfind, ?_, ?_⟩
  · simp [saveBook, updateFirst_of_find_none _ _ store hfind]
  · simp [deleteBook, updateFirst_of_find_none _ _ store hfind]

/-- Pulling by `bookId` removes exactly the matching entries: the length
drops by the number of matches. -/
theorem pullByBookId_length (bookId : String) :
    ∀ l : List Book, (pullByBookId l bookId).length +
      l.countP (fun b => decide (b.bookId = bookId)) = l.length := by
  intro l
  induction l with
  | nil => rfl
  | cons b rest ih =>
    by_cases h : b.bookId = bookId <;>
      simp [pullByBookId, List.filter_cons, List.countP_cons, h] at * <;> omega

/-- Pulling by a `bookId` that matches no entry is the identity. -/
theorem pullByBookId_eq_self (bookId : String) (l : List Book)
    (h : l.countP (fun b => decide (b.bookId = bookId)) = 0) :
    pullByBookId l bookId = l := by
  apply List.filter_eq_self.mpr
  intro b hb
  have hnb := List.countP_eq_zero.mp h b hb
  simpa using hnb

/-- C5: for an authenticated context whose `_id` resolves to a stored
user, `deleteBook` removes every saved book whose `bookId` matches — the
updated user's `bookCount` drops by the number of matches — and when no
entry matches, the user and the store are unchanged and the operation
still succeeds. -/
theorem deleteBook_pulls_all_matching (store : Store) (uid : String)
    (iid : Option String) (u : User) (bookId : String)
    (hfind : store.find? (idMatches (some uid)) = some u) :
    (deleteBook ⟨some ⟨some uid, iid⟩⟩ store bookId).1 =
      .ok (some { u with savedBooks := pullByBookId u.savedBooks bookId }) ∧
    bookCount { u with savedBooks := pullByBookId u.savedBooks bookId } +
      u.savedBooks.countP (fun b => decide (b.bookId = bookId)) = bookCount u ∧
    (u.savedBooks.countP (fun b => decide (b.bookId = bookId)) = 0 →
      deleteBook ⟨some ⟨some uid, iid⟩⟩ store bookId = (.ok (some u), store)) := by
  refine ⟨?_, ?_, ?_⟩
  · simpa [deleteBook] using
      updateFirst_fst_of_find_some (idMatches (some uid))
        (fun v => { v with savedBooks := pullByBookId v.savedBooks bookId })
        store u hfind
  · exact pullByBookId_length bookId u.savedBooks
  · intro h0
    have hfix : (fun v : User =>
        { v with savedBooks := pullByBookId v.savedBooks bookId }) u = u := by
      have hps := pullByBookId_eq_self bookId u.savedBooks h0
      cases u
      simp_all
    simp [deleteBook,
      updateFirst_of_fix (idMatches (some uid))
        (fun v => { v with savedBooks := pullByBookId v.savedBooks bookId })
        store u hfind hfix]

/-- Witness for C5 at a store whose user holds two entries sharing the
deleted `bookId`: both are removed and `bookCount` drops from 2 to 0. -/
theorem deleteBook_pulls_all_matching_witness :
    ([sampleUserTwoCopies] : Store).find? (idMatches (some "u1")) =
      some sampleUserTwoCopies ∧
    ((deleteBook ⟨some ⟨some "u1", none⟩⟩ [sampleUserTwoCopies] "b1").1 =
      .ok (some { sampleUserTwoCopies with
        savedBooks := pullByBookId sampleUserTwoCopies.savedBooks "b1" }) ∧
     bookCount { sampleUserTwoCopies with
        savedBooks := pullByBookId sampleUserTwoCopies.savedBooks "b1" } +
      sampleUserTwoCopies.savedBooks.countP (fun b => decide (b.bookId = "b1")) =
        bookCount sampleUserTwoCopies ∧
     (sampleUserTwoCopies.savedBooks.countP (fun b => decide (b.bookId = "b1")) = 0 →
      deleteBook ⟨some ⟨some "u1", none⟩⟩ [sampleUserTwoCopies] "b1" =
        (.ok (some sampleUserTwoCopies), [sampleUserTwoCopies]))) :=
  ⟨by decide,
   deleteBook_pulls_all_matching [sampleUserTwoCopies] "u1" none
     sampleUserTwoCopies "b1" (by decide)⟩

/-- C1: `saveBook` deduplicates by full-field equality, not by `bookId`
alone.  For an authenticated context resolving to a stored user not yet
holding `b`: the first call appends `b`; a second call with the identical
`b` returns the same user and leaves the store unchanged, so exactly one
copy of `b` is saved; a second call with `b'` sharing `b`'s `bookId` but
differing in title appends `b'` as well, leaving two entries with that
`bookId`. -/
theorem saveBook_dedup_full_field_equality (store : Store) (uid : String)
    (iid : Option String) (u : User) (b b' : Book)
    (hfind : store.find? (idMatches (some uid)) = some u)
    (hb : b ∉ u.savedBooks) (hb' : b' ∉ u.savedBooks)
    (htitle : b.title ≠ b'.title) (hid : b.bookId = b'.bookId) :
    (saveBook ⟨some ⟨some uid, iid⟩⟩ store b).1 =
      .ok (some { u with savedBooks := u.savedBooks ++ [b] }) ∧
    (saveBook ⟨some ⟨some uid, iid⟩⟩
        (saveBook ⟨some ⟨some uid, iid⟩⟩ store b).2 b).1 =
      .ok (some { u with savedBooks := u.savedBooks ++ [b] }) ∧
    (saveBook ⟨some ⟨some uid, iid⟩⟩
        (saveBook ⟨some ⟨some uid, iid⟩⟩ store b).2 b).2 =
      (saveBook ⟨some ⟨some uid, iid⟩⟩ store b).2 ∧
    (u.savedBooks ++ [b]).count b = 1 ∧
    (saveBook ⟨some ⟨some uid, iid⟩⟩
        (saveBook ⟨some ⟨some uid, iid⟩⟩ store b).2 b').1 =
      .ok (some { u with savedBooks := (u.savedBooks ++ [b]) ++ [b'] }) ∧
    ((u.savedBooks ++ [b]) ++ [b']).countP (fun x => decide (x.bookId = b.bookId)) =
      u.savedBooks.countP (fun x => decide (x.bookId = b.bookId)) + 2 := by
  have hne' : b' ≠ b := fun h => htitle (by rw [h])
  have hfu : (fun v : User => { v with savedBooks := addToSet v.savedBooks b }) u =
      { u with savedBooks := u.savedBooks ++ [b] } := by
    simp [addToSet, hb]
  have hpu : idMatches (some uid) u = true := List.find?_some hfind
  have hpfu : idMatches (some uid)
      ((fun v : User => { v with savedBooks := addToSet v.savedBooks b }) u) = true :=
    hpu
  have hfind1 : ((updateFirst (idMatches (some uid))
      (fun v => { v with savedBooks := addToSet v.savedBooks b }) store).2).find?
        (idMatches (some uid)) =
      some ((fun v : User => { v with savedBooks := addToSet v.savedBooks b }) u) :=
    find_updateFirst _ _ store u hfind hpfu
  have hmem : b ∈ u.savedBooks ++ [b] := by simp
  have hmem' : b' ∉ u.savedBooks ++ [b] := by simp [hb', hne']
  have hffu : (fun v : User => { v with savedBooks := addToSet v.savedBooks b })
      ((fun v : User => { v with savedBooks := addToSet v.savedBooks b }) u) =
      (fun v : User => { v with savedBooks := addToSet v.savedBooks b }) u := by
    rw [hfu]
    simp [addToSet, hmem]
  refine ⟨?_, ?_, ?_, ?_, ?_, ?_⟩
  · simpa [saveBook, hfu] using
      updateFirst_fst_of_find_some (idMatches (some uid))
        (fun v => { v with savedBooks := addToSet v.savedBooks b }) store u hfind
  · have h2 := updateFirst_of_fix (idMatches (some uid))
      (fun v => { v with savedBooks := addToSet v.savedBooks b }) _
      ((fun v : User => { v with savedBooks := addToSet v.savedBooks b }) u)
      hfind1 hffu
    simp only [saveBook]
    rw [h2]
    simp [hfu]
  · have h2 := updateFirst_of_fix (idMatches (some uid))
      (fun v => { v with savedBooks := addToSet v.savedBooks b }) _
      ((fun v : User => { v with savedBooks := addToSet v.savedBooks b }) u)
      hfind1 hffu
    simp only [saveBook]
    rw [h2]
  · have hcount0 : u.savedBooks.count b = 0 :=
      List.count_eq_zero.mpr hb
    simp [List.count_append, hcount0]
  · have h3 := updateFirst_fst_of_find_some (idMatches (some uid))
      (fun v => { v with savedBooks := addToSet v.savedBooks b' }) _
      ((fun v : User => { v with savedBooks := addToSet v.savedBooks b }) u) hfind1
    simp only [saveBook]
    rw [h3, hfu]
    simp [addToSet, hmem']
  · simp [List.countP_append, List.countP_cons, ← hid]

/-- Witness for C1 at a concrete store, user and pair of books. -/
theorem saveBook_dedup_full_field_equality_witness :
    ([sampleUser] : Store).find? (idMatches (some "u1")) = some sampleUser ∧
    sampleBook ∉ sampleUser.savedBooks ∧
    sampleBookOtherTitle ∉ sampleUser.savedBooks ∧
    sampleBook.title ≠ sampleBookOtherTitle.title ∧
    sampleBook.bookId = sampleBookOtherTitle.bookId ∧
    ((saveBook ⟨some ⟨some "u1", none⟩⟩ [sampleUser] sampleBook).1 =
      .ok (some { sampleUser with
        savedBooks := sampleUser.savedBooks ++ [sampleBook] }) ∧
     (saveBook ⟨some ⟨some "u1", none⟩⟩
        (saveBook ⟨some ⟨some "u1", none⟩⟩ [sampleUser] sampleBook).2 sampleBook).1 =
      .ok (some { sampleUser with
        savedBooks := sampleUser.savedBooks ++ [sampleBook] }) ∧
     (saveBook ⟨some ⟨some "u1", none⟩⟩
        (saveBook ⟨some ⟨some "u1", none⟩⟩ [sampleUser] sampleBook).2 sampleBook).2 =
      (saveBook ⟨some ⟨some "u1", none⟩⟩ [sampleUser] sampleBook).2 ∧
     (sampleUser.savedBooks ++ [sampleBook]).count sampleBook = 1 ∧
     (saveBook ⟨some ⟨some "u1", none⟩⟩
        (saveBook ⟨some ⟨some "u1", none⟩⟩ [sampleUser] sampleBook).2
        sampleBookOtherTitle).1 =
      .ok (some { sampleUser with savedBooks :=
        (sampleUser.savedBooks ++ [sampleBook]) ++ [sampleBookOtherTitle] }) ∧
     ((sampleUser.savedBooks ++ [sampleBook]) ++ [sampleBookOtherTitle]).countP
        (fun x => decide (x.bookId = sampleBook.bookId)) =
      sampleUser.savedBooks.countP
        (fun x => decide (x.bookId = sampleBook.bookId)) + 2) :=
  ⟨by decide, by decide, by decide, by decide, by decide,
   saveBook_dedup_full_field_equality [sampleUser] "u1" none sampleUser
     sampleBook sampleBookOtherTitle (by decide) (by decide) (by decide)
     (by decide) (by decide)⟩

/-- C9: authenticated `saveBook` and `deleteBook` touch only the
`savedBooks` array of the single user targeted by `context.user._id`: that
user's `id`, `username`, `email` and `password` are unchanged, and every
document before and after it in the store is kept in place verbatim. -/
theorem mutations_touch_only_target_savedBooks (front back : Store) (u : User)
    (uid : String) (iid : Option String) (input : Book) (bookId : String)
    (hfront : ∀ v ∈ front, idMatches (some uid) v = false)
    (hu : idMatches (some uid) u = true) :
    (∃ u', (saveBook ⟨some ⟨some uid, iid⟩⟩ (front ++ u :: back) input).2 =
        front ++ u' :: back ∧
      u'.id = u.id ∧ u'.username = u.username ∧ u'.email = u.email ∧
      u'.password = u.password ∧ u'.savedBooks = addToSet u.savedBooks input) ∧
    (∃ u', (deleteBook ⟨some ⟨some uid, iid⟩⟩ (front ++ u :: back) bookId).2 =
        front ++ u' :: back ∧
      u'.id = u.id ∧ u'.username = u.username ∧ u'.email = u.email ∧
      u'.password = u.password ∧
      u'.savedBooks = pullByBookId u.savedBooks bookId) := by
  constructor
  · refine ⟨{ u with savedBooks := addToSet u.savedBooks input },
      ?_, rfl, rfl, rfl, rfl, rfl⟩
    simp [saveBook, updateFirst_append _ _ front u back hfront hu]
  · refine ⟨{ u with savedBooks := pullByBookId u.savedBooks bookId },
      ?_, rfl, rfl, rfl, rfl, rfl⟩
    simp [deleteBook, updateFirst_append _ _ front u back hfront hu]

/-- Witness for C9: a store with a non-matching user in front of the
target and none behind. -/
theorem mutations_touch_only_target_savedBooks_witness :
    (∀ v ∈ ([sampleOtherUser] : Store), idMatches (some "u1") v = false) ∧
    idMatches (some "u1") sampleUser = true ∧
    ((∃ u', (saveBook ⟨some ⟨some "u1", none⟩⟩
          ([sampleOtherUser] ++ sampleUser :: []) sampleBook).2 =
        [sampleOtherUser] ++ u' :: [] ∧
      u'.id = sampleUser.id ∧ u'.username = sampleUser.username ∧
      u'.email = sampleUser.email ∧ u'.password = sampleUser.password ∧
      u'.savedBooks = addToSet sampleUser.savedBooks sampleBook) ∧
     (∃ u', (deleteBook ⟨some ⟨some "u1", none⟩⟩
          ([sampleOtherUser] ++ sampleUser :: []) "b1").2 =
        [sampleOtherUser] ++ u' :: [] ∧
      u'.id = sampleUser.id ∧ u'.username = sampleUser.username ∧
      u'.email = sampleUser.email ∧ u'.password = sampleUser.password ∧
      u'.savedBooks = pullByBookId sampleUser.savedBooks "b1")) :=
  ⟨by decide, by decide,
   mutations_touch_only_target_savedBooks [sampleOtherUser] [] sampleUser
     "u1" none sampleBook "b1" (by decide) (by decide)⟩

/-- C8: `bookCount` is derived at read time — for every user value
returned by `user`, `me`, `createUser`, `loginUser`, `saveBook` or
`deleteBook`, it equals the length of that user's `savedBooks`; no
operation stores it independently. -/
theorem bookCount_matches_savedBooks_length (context : Context) (store : Store)
    (username : String) (hash : String → String)
    (sign : String → String → String → String) (chk : User → String → Bool)
    (input : CreateUserInput) (freshId : String) (inputB : Book)
    (bookId email pw : String) :
    (∀ v, user store username = some v → bookCount v = v.savedBooks.length) ∧
    (∀ v, (me context store).1 = .ok (some v) →
      bookCount v = v.savedBooks.length) ∧
    bookCount (createUser hash sign store input freshId).1.2 =
      ((createUser hash sign store input freshId).1.2).savedBooks.length ∧
    (∀ t v, loginUser chk sign store email pw = .ok (t, v) →
      bookCount v = v.savedBooks.length) ∧
    (∀ v, (saveBook context store inputB).1 = .ok (some v) →
      bookCount v = v.savedBooks.length) ∧
    (∀ v, (deleteBook context store bookId).1 = .ok (some v) →
      bookCount v = v.savedBooks.length) :=
  ⟨fun _ _ => rfl, fun _ _ => rfl, rfl, fun _ _ _ => rfl,
   fun _ _ => rfl, fun _ _ => rfl⟩

/-- Witness for C8 via the `user` query at a concrete store. -/
theorem bookCount_matches_savedBooks_length_witness :
    user [sampleUser] "alice" = some sampleUser ∧
    bookCount sampleUser = sampleUser.savedBooks.length :=
  ⟨by decide,
   (bookCount_matches_savedBooks_length ⟨none⟩ [sampleUser] "alice" id
     (fun a _ _ => a) (fun _ _ => true) ⟨"a", "b", "c", []⟩ "u9" sampleBook
     "b1" "e" "p").1 sampleUser (by decide)⟩
